import Mathlib

/-!
Formal model of the TodoApp backend (a FastAPI multi-user task manager with
JWT authentication), shallowly embedded in Lean.

The embedding follows the Python sources:
- `src/backend/src/utils/sanitization.py` (string/email sanitization),
- `src/backend/src/utils/jwt.py` (`decode_token`, `get_current_user`),
- `src/backend/src/api/auth.py` (`register`, `login`),
- `src/backend/src/api/tasks.py` (task CRUD with ownership checks),
- `src/backend/src/schemas/task.py` and `schemas/auth.py` (request schemas).

The database session is modelled as an explicit list of rows passed in and
returned; primary-key uniqueness is the store invariant assumed where the
source relies on `scalar_one_or_none`.  The external `python-jose` library
and the absent modules (`src/models/task.py`, `src/utils/security.py`) are
modelled where noted in the corresponding doc comments.
-/

namespace TodoApp

/-! ## Python string primitives used by the sanitization utilities -/

/-- The whitespace characters removed by Python's `str.strip()`
(ASCII subset; unicode whitespace is not modelled). -/
def isPySpace (c : Char) : Bool :=
  c = ' ' || c = '\t' || c = '\n' || c = '\r' || c = '\x0b' || c = '\x0c'

/-- Remove leading and trailing whitespace from a character list,
as Python's `str.strip()` does. -/
def stripWsList (cs : List Char) : List Char :=
  ((cs.dropWhile isPySpace).reverse.dropWhile isPySpace).reverse

/-- Python `value.strip()`. -/
def pyStrip (s : String) : String := String.mk (stripWsList s.toList)

/-- Python `str.lower()` on one character (ASCII range; emails handled by the
code are ASCII, unicode case folding is not modelled). -/
def pyLowerChar (c : Char) : Char :=
  if 'A' ≤ c ∧ c ≤ 'Z' then Char.ofNat (c.toNat + 32) else c

/-- Python `value.lower()`. -/
def pyLower (s : String) : String := String.mk (s.toList.map pyLowerChar)

/-- Python `value.replace('\x00', '')`. -/
def removeNulls (s : String) : String :=
  String.mk (s.toList.filter (fun c => c != '\x00'))

/-- One character of Python's `html.escape(value)` with default quoting:
`&`, `<`, `>`, `"` and the single quote are replaced by their entities.
CPython performs the five `str.replace` calls starting with `&`, which is
equivalent to this character-wise map. -/
def htmlEscapeChar (c : Char) : List Char :=
  if c = '&' then "&amp;".toList
  else if c = '<' then "&lt;".toList
  else if c = '>' then "&gt;".toList
  else if c = '"' then "&quot;".toList
  else if c = '\'' then "&#x27;".toList
  else [c]

/-- Python `html.escape(value)` (default `quote=True`). -/
def htmlEscape (s : String) : String :=
  String.mk (s.toList.flatMap htmlEscapeChar)

/-- `sanitize_string` from `src/backend/src/utils/sanitization.py`:
empty values are returned unchanged; otherwise the value is stripped,
HTML-escaped, and null bytes are removed. -/
def sanitize_string (value : String) : String :=
  if value = "" then value
  else removeNulls (htmlEscape (pyStrip value))

/-- `sanitize_email` from `src/backend/src/utils/sanitization.py`:
empty values are returned unchanged; otherwise the email is stripped,
lowercased, and null bytes are removed.  The trailing regex test in the
source returns `sanitized` on both of its branches, so it never alters the
result and has no counterpart here. -/
def sanitize_email (email : String) : String :=
  if email = "" then email
  else removeNulls (pyLower (pyStrip email))

/-! ## Decimal rendering and parsing of identifiers

`auth.py` issues tokens with `"sub": str(user.id)` and `jwt.py` recovers the
id with `int(user_id)`.  `str` on an `int` is decimal rendering with a `-`
sign for negatives; `int` on a `str` strips surrounding whitespace, accepts
an optional sign, and otherwise requires decimal digits (raising
`ValueError`, modelled as `none`, on anything else; digit-separating
underscores and non-ASCII digits accepted by CPython are not modelled). -/

/-- The decimal digit character for `d < 10`. -/
def digitCh (d : Nat) : Char := Char.ofNat (48 + d)

/-- The decimal digit characters of a natural number, most significant
first, as produced by Python's `str`. -/
def natChars (n : Nat) : List Char :=
  if _h : n < 10 then [digitCh n]
  else natChars (n / 10) ++ [digitCh (n % 10)]
termination_by n
decreasing_by
  exact Nat.div_lt_self (by omega) (by omega)

/-- Python `str(n)` for a natural number. -/
def str_of_nat (n : Nat) : String := String.mk (natChars n)

/-- Python `str(i)` for an integer. -/
def str_of_int (i : Int) : String :=
  if i < 0 then String.mk ('-' :: natChars i.natAbs)
  else str_of_nat i.natAbs

/-- The value of a decimal digit character, if it is one. -/
def digitVal (c : Char) : Option Nat :=
  if '0' ≤ c ∧ c ≤ '9' then some (c.toNat - 48) else none

/-- Accumulating decimal parse of a digit run; fails on a non-digit. -/
def parseDigitsGo (acc : Nat) : List Char → Option Nat
  | [] => some acc
  | c :: cs =>
    match digitVal c with
    | some d => parseDigitsGo (acc * 10 + d) cs
    | none => none

/-- Parse a non-empty run of decimal digits. -/
def parseDigits : List Char → Option Nat
  | [] => none
  | cs => parseDigitsGo 0 cs

/-- Sign handling of Python `int(...)` after whitespace removal. -/
def pyIntCore (cs : List Char) : Option Int :=
  match cs with
  | [] => none
  | c :: rest =>
    if c = '-' then (parseDigits rest).map (fun n => -(n : Int))
    else if c = '+' then (parseDigits rest).map (fun n => (n : Int))
    else (parseDigits (c :: rest)).map (fun n => (n : Int))

/-- Python `int(s)` on a string: `some` the parsed integer, `none` for the
`ValueError` raised on unparseable input. -/
def pyInt (s : String) : Option Int := pyIntCore (stripWsList s.toList)

/-! ## Data model -/

/-- A FastAPI `HTTPException` as raised by the handlers: a status code and a
detail message. -/
structure HTTPError where
  status_code : Nat
  detail : String
deriving Repr, DecidableEq

/-- The `User` row from `src/backend/src/models/user.py` (timestamps are
abstract instants; the `tasks` relationship is represented by the task
store itself). -/
structure User where
  id : Int
  email : String
  hashed_password : String
  created_at : Nat
deriving Repr, DecidableEq

/-- Modelled from the spec: `src/models/task.py` is absent from the sources.
Its fields follow the Resource data model of spec section 3, the
`TaskResponse` schema, the uses in `src/backend/src/api/tasks.py`
(`id`, `user_id`, `title`, `description`, `is_completed`, timestamps), and
the example model in `specs/003-auth-isolation/examples/new-endpoint.py`. -/
structure Task where
  id : Int
  user_id : Int
  title : String
  description : Option String
  is_completed : Bool
  created_at : Nat
  updated_at : Nat
deriving Repr, DecidableEq

/-- `TaskCreate` from `src/backend/src/schemas/task.py`: the create payload
admits only `title` and `description`; in particular it has no owner field,
so any `user_id` submitted by the caller is discarded at the schema
boundary. -/
structure TaskCreate where
  title : String
  description : Option String
deriving Repr, DecidableEq

/-- `TaskUpdate` from `src/backend/src/schemas/task.py`: the update payload
admits only optional `title`, `description` and `is_completed`; it has no
owner field. -/
structure TaskUpdate where
  title : Option String
  description : Option String
  is_completed : Option Bool
deriving Repr, DecidableEq

/-- `TaskList` from `src/backend/src/schemas/task.py`. -/
structure TaskList where
  tasks : List Task
  total : Nat
deriving Repr, DecidableEq

/-- The decoded JWT payload as used by `get_current_user`: only the `sub`
claim is read (`payload.get("sub")`, absent claims give `None`).  After a
successful `python-jose` decode a present `sub` is necessarily a string. -/
structure Claims where
  sub : Option String
deriving Repr, DecidableEq

/-- An encoded bearer token, described by the properties `python-jose`
checks when decoding it against the configured secret and algorithm:
whether its structure (segments, base64, JSON) is valid, whether its
signature verifies under the configured secret and algorithm, its `exp`
claim, whether its remaining registered claims are well-formed, and its
`sub` claim. -/
structure TokenRepr where
  structureValid : Bool
  signatureValid : Bool
  exp : Nat
  claimsValid : Bool
  sub : Option String
deriving Repr, DecidableEq

/-- The outcome of the `jose.jwt.decode` call inside `decode_token`:
either the decoded claims or one of the exception classes the source
catches.  `ExpiredSignatureError` and `JWTClaimsError` are subclasses of
`JWTError` in `python-jose`; the source lists their `except` clauses first,
so the three constructors here are the disjoint outcomes of that chain. -/
inductive JoseOutcome where
  | ok (claims : Claims)
  | expiredSignatureError
  | jwtClaimsError
  | jwtError
deriving Repr, DecidableEq

/-- Modelled from the behavior of the external `python-jose` library used by
`decode_token`: `jwt.decode(token, secret, algorithms=[alg])` fails on
invalid structure, then on signature verification (a wrong secret or a
different algorithm both fail it), both raising plain `JWTError`; then
validates `exp` (expired exactly when `exp < now`), raising
`ExpiredSignatureError`; then validates the remaining registered claims,
raising `JWTClaimsError`; otherwise it returns the payload. -/
def joseDecode (tok : TokenRepr) (now : Nat) : JoseOutcome :=
  if !tok.structureValid then .jwtError
  else if !tok.signatureValid then .jwtError
  else if tok.exp < now then .expiredSignatureError
  else if !tok.claimsValid then .jwtClaimsError
  else .ok { sub := tok.sub }

/-- The outcome of the `get_current_user` dependency: a resolved user, an
`HTTPException`, or an uncaught Python `ValueError` (which FastAPI's
generic exception handler in `src/backend/src/middleware/error_handler.py`
turns into a 500 response with no detail). -/
inductive ResolveOutcome where
  | ok (u : User)
  | httpError (e : HTTPError)
  | valueError
deriving Repr, DecidableEq

/-! ## Token codec and identity resolution (`src/backend/src/utils/jwt.py`) -/

/-- `decode_token` from `src/backend/src/utils/jwt.py`: maps the outcome of
`jose.jwt.decode` through its `except` chain, in source order
`ExpiredSignatureError`, `JWTClaimsError`, `JWTError`. -/
def decode_token (tok : TokenRepr) (now : Nat) : Except HTTPError Claims :=
  match joseDecode tok now with
  | .ok payload => .ok payload
  | .expiredSignatureError => .error { status_code := 401, detail := "Token has expired" }
  | .jwtClaimsError => .error { status_code := 401, detail := "Invalid token claims" }
  | .jwtError => .error { status_code := 401, detail := "Invalid token" }

/-- `get_current_user` from `src/backend/src/utils/jwt.py`: decode the
token, read `payload.get("sub")`, convert with Python `int(...)` (whose
`ValueError` on an unparseable subject is not caught by the source), and
fetch the user row by id from the current store. -/
def get_current_user (tok : TokenRepr) (now : Nat) (users : List User) : ResolveOutcome :=
  match decode_token tok now with
  | .error e => .httpError e
  | .ok payload =>
    match payload.sub with
    | none => .httpError { status_code := 401, detail := "Could not validate credentials" }
    | some s =>
      match pyInt s with
      | none => .valueError
      | some n =>
        match users.find? (fun u => u.id == n) with
        | none => .httpError { status_code := 401, detail := "User not found" }
        | some user => .ok user

/-- `create_access_token` from `src/backend/src/utils/jwt.py`, specialised
to the claims dictionaries the API passes it: `jwt.encode` under the
configured secret and algorithm yields a structurally valid, correctly
signed token with well-formed claims carrying the given `sub` and the
expiry `now + expires` computed by the source. -/
def create_access_token (sub : Option String) (exp : Nat) : TokenRepr :=
  { structureValid := true, signatureValid := true, exp := exp,
    claimsValid := true, sub := sub }

/-! ## Authentication (`src/backend/src/api/auth.py`) -/

/-- Modelled from the spec: `src/utils/security.py` is absent from the
sources.  Spec section 4.2 describes `hash_password` as a salted one-way
digest; the model keeps only what the callers observe, an injective digest
string distinct from the plaintext. -/
def hash_password (password : String) : String :=
  String.mk ('#' :: password.toList)

/-- Modelled from the spec: `src/utils/security.py` is absent from the
sources.  `verify_password plain hashed` succeeds exactly when `hashed` is
the digest of `plain`. -/
def verify_password (plain hashed : String) : Bool :=
  hash_password plain == hashed

/-- The token issued on successful registration and login, both of which
run `create_access_token(data={"sub": str(user.id)})` in
`src/backend/src/api/auth.py`. -/
def register_login_token (u : User) (exp : Nat) : TokenRepr :=
  create_access_token (some (str_of_int u.id)) exp

/-- `login` from `src/backend/src/api/auth.py`: fetch the user by the
(schema-sanitized) email; if the row is absent or the password does not
verify against its digest, raise the same 401; otherwise issue a token.
The source's `if not user or not verify_password(...)` single condition is
rendered as the two branches reaching the identical error value. -/
def login (users : List User) (email password : String) (exp : Nat) :
    Except HTTPError (TokenRepr × User) :=
  match users.find? (fun u => u.email == email) with
  | none => .error { status_code := 401, detail := "Incorrect email or password" }
  | some user =>
    if verify_password password user.hashed_password then
      .ok (register_login_token user exp, user)
    else
      .error { status_code := 401, detail := "Incorrect email or password" }

/-- `register` from `src/backend/src/api/auth.py`, composed with the
`UserRegister` schema of `src/backend/src/schemas/auth.py` whose
`field_validator` applies `sanitize_email` to the submitted email before
the handler runs.  The handler checks uniqueness against the sanitized
email, inserts the new row (`new_id` standing for the database-assigned
primary key), and issues a token. -/
def register_request (users : List User) (raw_email password : String)
    (new_id : Int) (now exp : Nat) :
    Except HTTPError (List User × TokenRepr × User) :=
  let email := sanitize_email raw_email
  match users.find? (fun u => u.email == email) with
  | some _ => .error { status_code := 400, detail := "Email already registered" }
  | none =>
    let new_user : User :=
      { id := new_id, email := email,
        hashed_password := hash_password password, created_at := now }
    .ok (users ++ [new_user], register_login_token new_user exp, new_user)

/-! ## Task endpoints (`src/backend/src/api/tasks.py`) -/

/-- The row fetch `select(Task).where(Task.id == task_id)` with
`scalar_one_or_none()`, under primary-key uniqueness of `id`. -/
def find_task (store : List Task) (tid : Int) : Option Task :=
  store.find? (fun t => t.id == tid)

/-- `get_tasks` from `src/backend/src/api/tasks.py`: the rows whose
`user_id` equals the authenticated user's id, ordered by `created_at`
descending, with `total` the number of returned rows. -/
def get_tasks (store : List Task) (uid : Int) : TaskList :=
  let tasks := (store.filter (fun t => t.user_id == uid)).mergeSort
    (fun a b => decide (b.created_at ≤ a.created_at))
  { tasks := tasks, total := tasks.length }

/-- `create_task` from `src/backend/src/api/tasks.py`: a new row whose
`user_id` is the authenticated user's id and whose content comes from the
validated `TaskCreate` payload; `new_id` stands for the database-assigned
primary key and `now` for the row timestamps; `is_completed` starts false
per the Task model default. -/
def create_task (store : List Task) (uid : Int) (payload : TaskCreate)
    (new_id : Int) (now : Nat) : Task × List Task :=
  let new_task : Task :=
    { id := new_id, user_id := uid, title := payload.title,
      description := payload.description, is_completed := false,
      created_at := now, updated_at := now }
  (new_task, store ++ [new_task])

/-- `get_task` from `src/backend/src/api/tasks.py`: 404 when no row has the
requested id, 403 when the row's `user_id` differs from the caller's id,
otherwise the row. -/
def get_task (store : List Task) (uid tid : Int) : Except HTTPError Task :=
  match find_task store tid with
  | none => .error { status_code := 404, detail := "Task not found" }
  | some task =>
    if task.user_id != uid then
      .error { status_code := 403, detail := "Not authorized to access this task" }
    else .ok task

/-- The field updates of `update_task`: each payload field overwrites the
row field only when present (`is not None` in the source), then
`updated_at` is refreshed. -/
def apply_update (task : Task) (payload : TaskUpdate) (now : Nat) : Task :=
  let t1 := match payload.title with
    | some v => { task with title := v }
    | none => task
  let t2 := match payload.description with
    | some v => { t1 with description := some v }
    | none => t1
  let t3 := match payload.is_completed with
    | some v => { t2 with is_completed := v }
    | none => t2
  { t3 with updated_at := now }

/-- `update_task` from `src/backend/src/api/tasks.py`: the same 404/403
decision as `get_task`, raised before any mutation; on the owner's own row
the present payload fields are applied and the row is committed back.
Returns the response and the resulting store. -/
def update_task (store : List Task) (uid tid : Int) (payload : TaskUpdate)
    (now : Nat) : Except HTTPError Task × List Task :=
  match find_task store tid with
  | none => (.error { status_code := 404, detail := "Task not found" }, store)
  | some task =>
    if task.user_id != uid then
      (.error { status_code := 403, detail := "Not authorized to update this task" }, store)
    else
      let task1 := apply_update task payload now
      (.ok task1, store.map (fun t => if t.id == tid then task1 else t))

/-- `delete_task` from `src/backend/src/api/tasks.py`: the same 404/403
decision, raised before any mutation; on the owner's own row the row is
deleted.  Returns the (204, no content) response and the resulting
store. -/
def delete_task (store : List Task) (uid tid : Int) :
    Except HTTPError Unit × List Task :=
  match find_task store tid with
  | none => (.error { status_code := 404, detail := "Task not found" }, store)
  | some task =>
    if task.user_id != uid then
      (.error { status_code := 403, detail := "Not authorized to delete this task" }, store)
    else
      (.ok (), store.filter (fun t => t.id != tid))

/-- The `TaskCreate` schema boundary of `src/backend/src/schemas/task.py`:
the `mode="before"` validators apply `sanitize_string` to `title` and
`description`, then pydantic enforces `min_length=1`/`max_length=255` on
the title and `max_length=1000` on the description (lengths measured on
the sanitized strings). -/
def task_create_validate (title : String) (description : Option String) :
    Except String TaskCreate :=
  let t := sanitize_string title
  let d := description.map sanitize_string
  if t.length < 1 then .error "String should have at least 1 character"
  else if 255 < t.length then .error "String should have at most 255 characters"
  else
    match d with
    | some s =>
      if 1000 < s.length then .error "String should have at most 1000 characters"
      else .ok { title := t, description := d }
    | none => .ok { title := t, description := none }

/-- The `TaskUpdate` schema boundary of `src/backend/src/schemas/task.py`:
the `mode="before"` validators apply `sanitize_string` to `title` and
`description` when they are submitted, then pydantic enforces
`min_length=1`/`max_length=255` on a present title and `max_length=1000`
on a present description (absent optional fields are not constrained;
lengths are measured on the sanitized strings). -/
def task_update_validate (title description : Option String)
    (is_completed : Option Bool) : Except String TaskUpdate :=
  let t := title.map sanitize_string
  let d := description.map sanitize_string
  match t with
  | some s =>
    if s.length < 1 then .error "String should have at least 1 character"
    else if 255 < s.length then .error "String should have at most 255 characters"
    else
      match d with
      | some s2 =>
        if 1000 < s2.length then .error "String should have at most 1000 characters"
        else .ok { title := t, description := d, is_completed := is_completed }
      | none => .ok { title := t, description := none, is_completed := is_completed }
  | none =>
    match d with
    | some s2 =>
      if 1000 < s2.length then .error "String should have at most 1000 characters"
      else .ok { title := none, description := d, is_completed := is_completed }
    | none => .ok { title := none, description := none, is_completed := is_completed }

/-! ## Helper lemmas: decimal round-trip of identifiers -/

theorem parseDigitsGo_append (acc : Nat) (xs ys : List Char) :
    parseDigitsGo acc (xs ++ ys)
      = (parseDigitsGo acc xs).bind (fun a => parseDigitsGo a ys) := by
  induction xs generalizing acc with
  | nil => rfl
  | cons c cs ih =>
    simp only [List.cons_append, parseDigitsGo]
    cases digitVal c with
    | none => rfl
    | some d => exact ih (acc * 10 + d)

theorem digitVal_digitCh (d : Nat) (h : d < 10) :
    digitVal (digitCh d) = some d := by
  interval_cases d <;> decide

theorem natChars_ne_nil (n : Nat) : natChars n ≠ [] := by
  rw [natChars]
  split <;> simp

theorem natChars_head (n : Nat) :
    ∃ d rest, d < 10 ∧ natChars n = digitCh d :: rest := by
  induction n using natChars.induct with
  | case1 n h =>
    exact ⟨n, [], h, by rw [natChars]; simp [h]⟩
  | case2 n h ih =>
    obtain ⟨d, rest, hd, hrest⟩ := ih
    refine ⟨d, rest ++ [digitCh (n % 10)], hd, ?_⟩
    rw [natChars]
    simp [h, hrest]

theorem natChars_last (n : Nat) :
    ∃ d ys, d < 10 ∧ natChars n = ys ++ [digitCh d] := by
  rw [natChars]
  split
  · exact ⟨n, [], by assumption, by simp⟩
  · exact ⟨n % 10, natChars (n / 10), Nat.mod_lt _ (by omega), rfl⟩

theorem parseDigitsGo_natChars (n acc : Nat) :
    parseDigitsGo acc (natChars n)
      = some (acc * 10 ^ (natChars n).length + n) := by
  induction n using natChars.induct generalizing acc with
  | case1 n h =>
    rw [natChars]
    simp only [h, dif_pos]
    simp [parseDigitsGo, digitVal_digitCh n h]
  | case2 n h ih =>
    rw [natChars, dif_neg h, parseDigitsGo_append, ih acc]
    have hm : n % 10 < 10 := Nat.mod_lt _ (by omega)
    have hstep : ∀ a : Nat, parseDigitsGo a [digitCh (n % 10)] = some (a * 10 + n % 10) := by
      intro a
      simp [parseDigitsGo, digitVal_digitCh (n % 10) hm]
    simp only [Option.bind, hstep, List.length_append, List.length_cons,
      List.length_nil, Nat.zero_add]
    congr 1
    have h2 : n / 10 * 10 + n % 10 = n := by omega
    calc (acc * 10 ^ (natChars (n / 10)).length + n / 10) * 10 + n % 10
        = acc * 10 ^ (natChars (n / 10)).length * 10 + (n / 10 * 10 + n % 10) := by ring
      _ = acc * 10 ^ ((natChars (n / 10)).length + 1) + n := by rw [h2, pow_succ, Nat.mul_assoc]

theorem parseDigits_natChars (n : Nat) : parseDigits (natChars n) = some n := by
  obtain ⟨d, rest, _, heq⟩ := natChars_head n
  have h0 : parseDigits (natChars n) = parseDigitsGo 0 (natChars n) := by
    rw [heq]
    exact rfl
  rw [h0, parseDigitsGo_natChars]
  simp

theorem digitCh_not_space (d : Nat) (h : d < 10) : isPySpace (digitCh d) = false := by
  interval_cases d <;> decide

theorem digitCh_ne_minus (d : Nat) (h : d < 10) : digitCh d ≠ '-' := by
  interval_cases d <;> decide

theorem digitCh_ne_plus (d : Nat) (h : d < 10) : digitCh d ≠ '+' := by
  interval_cases d <;> decide

theorem stripWsList_eq_self (cs : List Char)
    (h1 : cs.dropWhile isPySpace = cs)
    (h2 : cs.reverse.dropWhile isPySpace = cs.reverse) :
    stripWsList cs = cs := by
  unfold stripWsList
  rw [h1, h2, List.reverse_reverse]

theorem dropWhile_cons_not_space (c : Char) (cs : List Char)
    (h : isPySpace c = false) :
    (c :: cs).dropWhile isPySpace = c :: cs := by
  simp [List.dropWhile_cons, h]

theorem stripWsList_natChars (n : Nat) : stripWsList (natChars n) = natChars n := by
  obtain ⟨d, rest, hd, hhead⟩ := natChars_head n
  obtain ⟨e, ys, he, hlast⟩ := natChars_last n
  apply stripWsList_eq_self
  · rw [hhead]
    exact dropWhile_cons_not_space _ _ (digitCh_not_space d hd)
  · rw [hlast, List.reverse_append]
    exact dropWhile_cons_not_space _ _ (digitCh_not_space e he)

theorem stripWsList_minus_natChars (n : Nat) :
    stripWsList ('-' :: natChars n) = '-' :: natChars n := by
  obtain ⟨e, ys, he, hlast⟩ := natChars_last n
  apply stripWsList_eq_self
  · exact dropWhile_cons_not_space _ _ (by decide)
  · rw [hlast, show '-' :: (ys ++ [digitCh e]) = ('-' :: ys) ++ [digitCh e] from rfl,
      List.reverse_append]
    exact dropWhile_cons_not_space _ _ (digitCh_not_space e he)

theorem pyIntCore_natChars (n : Nat) :
    pyIntCore (natChars n) = some (n : Int) := by
  obtain ⟨d, rest, hd, hhead⟩ := natChars_head n
  rw [hhead, pyIntCore]
  rw [if_neg (digitCh_ne_minus d hd), if_neg (digitCh_ne_plus d hd),
    ← hhead, parseDigits_natChars]
  rfl

theorem find?_id_eq_some (users : List User) (u : User) (hmem : u ∈ users)
    (huniq : ∀ v ∈ users, v.id = u.id → v = u) :
    users.find? (fun v => v.id == u.id) = some u := by
  induction users with
  | nil => cases hmem
  | cons w ws ih =>
    by_cases hw : w.id = u.id
    · have hwu : w = u := huniq w (List.mem_cons_self w ws) hw
      subst hwu
      simp [List.find?_cons]
    · have hwb : (w.id == u.id) = false := by simp [hw]
      rw [List.find?_cons, hwb]
      rcases List.mem_cons.mp hmem with h | h
      · exact absurd (congrArg User.id h.symm) hw
      · exact ih h (fun v hv => huniq v (List.mem_cons_of_mem w hv))

theorem pyInt_str_of_int (i : Int) : pyInt (str_of_int i) = some i := by
  by_cases hi : i < 0
  · rw [str_of_int, if_pos hi]
    show pyIntCore (stripWsList ('-' :: natChars i.natAbs)) = some i
    rw [stripWsList_minus_natChars, pyIntCore, if_pos rfl, parseDigits_natChars]
    show some (-(i.natAbs : Int)) = some i
    congr 1
    omega
  · rw [str_of_int, if_neg hi, str_of_nat]
    show pyIntCore (stripWsList (natChars i.natAbs)) = some i
    rw [stripWsList_natChars, pyIntCore_natChars]
    congr 1
    omega

/-! ## Claim theorems -/

/-- C1: for every authenticated actor and task id, `get_task`, `update_task`
and `delete_task` decide in the same order: no row with the id gives 404
and leaves the store unchanged; a row owned by another user gives 403 with
no task content and leaves the store unchanged; otherwise the operation
proceeds on the found row. -/
theorem single_task_ops_three_outcome_decision (store : List Task) (uid tid : Int)
    (payload : TaskUpdate) (now : Nat) :
    (find_task store tid = none →
      get_task store uid tid = .error { status_code := 404, detail := "Task not found" }
      ∧ update_task store uid tid payload now
          = (.error { status_code := 404, detail := "Task not found" }, store)
      ∧ delete_task store uid tid
          = (.error { status_code := 404, detail := "Task not found" }, store))
    ∧ (∀ task, find_task store tid = some task → task.user_id ≠ uid →
      get_task store uid tid
          = .error { status_code := 403, detail := "Not authorized to access this task" }
      ∧ update_task store uid tid payload now
          = (.error { status_code := 403, detail := "Not authorized to update this task" }, store)
      ∧ delete_task store uid tid
          = (.error { status_code := 403, detail := "Not authorized to delete this task" }, store))
    ∧ (∀ task, find_task store tid = some task → task.user_id = uid →
      get_task store uid tid = .ok task
      ∧ (update_task store uid tid payload now).1 = .ok (apply_update task payload now)
      ∧ (delete_task store uid tid).1 = .ok ()) := by
  refine ⟨fun h => ?_, fun task h hne => ?_, fun task h he => ?_⟩
  · unfold get_task update_task delete_task
    rw [h]
    exact ⟨rfl, rfl, rfl⟩
  · have hb : (task.user_id != uid) = true := by simp [hne]
    unfold get_task update_task delete_task
    rw [h]
    simp [hb]
  · have hb : (task.user_id != uid) = false := by simp [he]
    unfold get_task update_task delete_task
    rw [h]
    simp [hb]

/-- C1 witness: on a one-task store owned by user 10, a missing id gives
404, a foreign actor gets 403, and the owner's read succeeds. -/
theorem single_task_ops_three_outcome_decision_witness :
    get_task [⟨1, 10, "t", none, false, 0, 0⟩] 99 2
      = .error { status_code := 404, detail := "Task not found" }
    ∧ get_task [⟨1, 10, "t", none, false, 0, 0⟩] 99 1
      = .error { status_code := 403, detail := "Not authorized to access this task" }
    ∧ get_task [⟨1, 10, "t", none, false, 0, 0⟩] 10 1
      = .ok ⟨1, 10, "t", none, false, 0, 0⟩ := by
  refine ⟨((single_task_ops_three_outcome_decision
      [⟨1, 10, "t", none, false, 0, 0⟩] 99 2 ⟨none, none, none⟩ 0).1 rfl).1,
    ((single_task_ops_three_outcome_decision
      [⟨1, 10, "t", none, false, 0, 0⟩] 99 1 ⟨none, none, none⟩ 0).2.1
      ⟨1, 10, "t", none, false, 0, 0⟩ rfl (by decide)).1,
    ((single_task_ops_three_outcome_decision
      [⟨1, 10, "t", none, false, 0, 0⟩] 10 1 ⟨none, none, none⟩ 0).2.2
      ⟨1, 10, "t", none, false, 0, 0⟩ rfl rfl).1⟩

/-- C2: a created row's `user_id` is the authenticated actor's id and the
row is what gets stored; an update, whatever its payload, never changes a
row's `user_id` (the schema admits only `title`, `description` and
`is_completed`, so the quantification over `TaskUpdate`/`TaskCreate`
covers every admissible payload). -/
theorem create_update_owner_stamping (store : List Task) (uid new_id tid : Int)
    (c : TaskCreate) (d : TaskUpdate) (now : Nat) :
    (create_task store uid c new_id now).1.user_id = uid
    ∧ (create_task store uid c new_id now).1 ∈ (create_task store uid c new_id now).2
    ∧ (∀ task, (apply_update task d now).user_id = task.user_id)
    ∧ (∀ task, find_task store tid = some task → task.user_id = uid →
        (update_task store uid tid d now).1 = .ok (apply_update task d now)) := by
  refine ⟨rfl, ?_, ?_, ?_⟩
  · simp [create_task]
  · intro task
    obtain ⟨dt, dd, dc⟩ := d
    cases dt <;> cases dd <;> cases dc <;> rfl
  · intro task h he
    have hb : (task.user_id != uid) = false := by simp [he]
    unfold update_task
    rw [h]
    simp [hb]

/-- C2 witness: a create by user 7 stores `user_id = 7`; an owner update on
a row of user 10 keeps `user_id = 10`. -/
theorem create_update_owner_stamping_witness :
    (create_task [] 7 ⟨"x", none⟩ 1 0).1.user_id = 7
    ∧ (apply_update ⟨1, 10, "t", none, false, 0, 0⟩ ⟨some "u", none, some true⟩ 5).user_id
      = (⟨1, 10, "t", none, false, 0, 0⟩ : Task).user_id
    ∧ (update_task [⟨1, 10, "t", none, false, 0, 0⟩] 10 1 ⟨some "u", none, some true⟩ 5).1
      = .ok (apply_update ⟨1, 10, "t", none, false, 0, 0⟩ ⟨some "u", none, some true⟩ 5) := by
  refine ⟨(create_update_owner_stamping [] 7 1 0 ⟨"x", none⟩ ⟨none, none, none⟩ 0).1,
    (create_update_owner_stamping [] 10 1 1 ⟨"x", none⟩ ⟨some "u", none, some true⟩ 5).2.2.1
      ⟨1, 10, "t", none, false, 0, 0⟩,
    (create_update_owner_stamping [⟨1, 10, "t", none, false, 0, 0⟩] 10 1 1
      ⟨"x", none⟩ ⟨some "u", none, some true⟩ 5).2.2.2
      ⟨1, 10, "t", none, false, 0, 0⟩ rfl rfl⟩

/-- C3: `get_tasks` returns exactly the rows whose `user_id` is the
caller's id, and the reported `total` is the number of returned rows. -/
theorem list_scoping (store : List Task) (uid : Int) :
    (get_tasks store uid).total = (get_tasks store uid).tasks.length
    ∧ ∀ t : Task, t ∈ (get_tasks store uid).tasks ↔ t ∈ store ∧ t.user_id = uid := by
  constructor
  · rfl
  · intro t
    simp [get_tasks, List.mem_mergeSort, List.mem_filter]

/-- C4: evaluation of `get_current_user` at the failing input.  A valid,
unexpired, correctly signed token whose subject is the non-numeric string
"abc" makes `int(user_id)` raise an uncaught `ValueError` (surfacing as a
500 through the generic exception handler), not a 401 credential error;
the missing-subject case does give the 401 credential error the claim
describes. -/
theorem unparseable_subject_uncaught_valueerror :
    get_current_user (create_access_token (some "abc") 100) 0 [] = .valueError
    ∧ get_current_user (create_access_token none 100) 0 []
      = .httpError { status_code := 401, detail := "Could not validate credentials" }
    ∧ ∀ e : HTTPError, (ResolveOutcome.valueError ≠ .httpError e) :=
  ⟨rfl, rfl, fun _ h => ResolveOutcome.noConfusion h⟩

/-- C5 counterexample: a structurally invalid token and a well-formed,
unexpired token whose signature fails verification surface as one and the
same error value, 401 "Invalid token". -/
theorem malformed_and_bad_signature_same_error :
    decode_token ⟨false, false, 100, true, some "1"⟩ 0
      = .error { status_code := 401, detail := "Invalid token" }
    ∧ decode_token ⟨true, false, 100, true, some "1"⟩ 0
      = .error { status_code := 401, detail := "Invalid token" } :=
  ⟨rfl, rfl⟩

/-- C5 amended: token parsing distinguishes the expired kind (its own 401
"Token has expired" message) and the invalid-claims kind (401 "Invalid
token claims"), but a malformed structure and a failed signature
verification surface as the same 401 "Invalid token" error value. -/
theorem token_error_kinds_amended (tok : TokenRepr) (now : Nat) :
    (tok.structureValid = false →
      decode_token tok now = .error { status_code := 401, detail := "Invalid token" })
    ∧ (tok.structureValid = true → tok.signatureValid = false →
      decode_token tok now = .error { status_code := 401, detail := "Invalid token" })
    ∧ (tok.structureValid = true → tok.signatureValid = true → tok.exp < now →
      decode_token tok now = .error { status_code := 401, detail := "Token has expired" })
    ∧ (tok.structureValid = true → tok.signatureValid = true → ¬tok.exp < now →
        tok.claimsValid = false →
      decode_token tok now = .error { status_code := 401, detail := "Invalid token claims" })
    ∧ ({ status_code := 401, detail := "Token has expired" } : HTTPError)
      ≠ { status_code := 401, detail := "Invalid token" } := by
  refine ⟨fun h1 => ?_, fun h1 h2 => ?_, fun h1 h2 h3 => ?_, fun h1 h2 h3 h4 => ?_, by decide⟩
  all_goals unfold decode_token joseDecode
  · simp [h1]
  · simp [h1, h2]
  · simp [h1, h2, h3]
  · simp [h1, h2, h3, h4]

/-- C5 witness: each branch of the amended statement at a concrete
token. -/
theorem token_error_kinds_amended_witness :
    decode_token ⟨false, true, 100, true, some "1"⟩ 0
      = .error { status_code := 401, detail := "Invalid token" }
    ∧ decode_token ⟨true, false, 100, true, some "2"⟩ 0
      = .error { status_code := 401, detail := "Invalid token" }
    ∧ decode_token ⟨true, true, 0, true, some "1"⟩ 1
      = .error { status_code := 401, detail := "Token has expired" }
    ∧ decode_token ⟨true, true, 100, false, some "1"⟩ 0
      = .error { status_code := 401, detail := "Invalid token claims" } :=
  ⟨(token_error_kinds_amended ⟨false, true, 100, true, some "1"⟩ 0).1 rfl,
   (token_error_kinds_amended ⟨true, false, 100, true, some "2"⟩ 0).2.1 rfl rfl,
   (token_error_kinds_amended ⟨true, true, 0, true, some "1"⟩ 1).2.2.1 rfl rfl (by decide),
   (token_error_kinds_amended ⟨true, true, 100, false, some "1"⟩ 0).2.2.2.1 rfl rfl
     (by decide) rfl⟩

/-- C6: identity resolution reads the user store on the call: a decodable
token whose parsed subject has no matching user row fails with 401 "User
not found", and a resolved identity is always a row of the current
store. -/
theorem resolver_rechecks_store (tok : TokenRepr) (now : Nat) (users : List User) :
    (∀ c s n, decode_token tok now = .ok c → c.sub = some s → pyInt s = some n →
      users.find? (fun u => u.id == n) = none →
      get_current_user tok now users
        = .httpError { status_code := 401, detail := "User not found" })
    ∧ (∀ u, get_current_user tok now users = .ok u → u ∈ users) := by
  constructor
  · intro c s n hdec hsub hpy hfind
    simp only [get_current_user, hdec, hsub, hpy, hfind]
  · intro u h
    unfold get_current_user at h
    rcases hdec : decode_token tok now with e | c
    · rw [hdec] at h
      simp at h
    · rw [hdec] at h
      rcases hsub : c.sub with _ | s
      · simp only [hsub] at h
        simp at h
      · simp only [hsub] at h
        rcases hpy : pyInt s with _ | n
        · simp only [hpy] at h
          simp at h
        · simp only [hpy] at h
          rcases hfind : users.find? (fun u => u.id == n) with _ | v
          · simp only [hfind] at h
            simp at h
          · simp only [hfind, ResolveOutcome.ok.injEq] at h
            subst h
            exact List.mem_of_find?_eq_some hfind

/-- C6 witness: a valid token for id 7 against an empty store fails with
"User not found"; against a store holding user 7 it resolves to that
stored row. -/
theorem resolver_rechecks_store_witness :
    get_current_user (create_access_token (some "7") 100) 0 []
      = .httpError { status_code := 401, detail := "User not found" }
    ∧ (⟨7, "a@b.c", "#pw", 0⟩ : User) ∈ [(⟨7, "a@b.c", "#pw", 0⟩ : User)] :=
  ⟨(resolver_rechecks_store (create_access_token (some "7") 100) 0 []).1
      ⟨some "7"⟩ "7" 7 rfl rfl (by decide) rfl,
   (resolver_rechecks_store (create_access_token (some "7") 100) 0
      [⟨7, "a@b.c", "#pw", 0⟩]).2 ⟨7, "a@b.c", "#pw", 0⟩ (by decide)⟩

/-- C7: the login failure for an unknown email and the login failure for a
known email with a non-matching password are the identical error value:
same 401 status, same "Incorrect email or password" message. -/
theorem login_uniform_failure (users : List User) (email password : String) (exp : Nat) :
    (users.find? (fun u => u.email == email) = none →
      login users email password exp
        = .error { status_code := 401, detail := "Incorrect email or password" })
    ∧ (∀ u, users.find? (fun u => u.email == email) = some u →
        verify_password password u.hashed_password = false →
        login users email password exp
          = .error { status_code := 401, detail := "Incorrect email or password" }) := by
  constructor
  · intro h
    simp only [login, h]
  · intro u h hv
    simp only [login, h, hv]
    simp

/-- C7 witness: both failure cases on a one-user store produce the same
error value. -/
theorem login_uniform_failure_witness :
    login [⟨1, "a@b.c", hash_password "pw123", 0⟩] "x@y.z" "pw123" 9
      = .error { status_code := 401, detail := "Incorrect email or password" }
    ∧ login [⟨1, "a@b.c", hash_password "pw123", 0⟩] "a@b.c" "wrong" 9
      = .error { status_code := 401, detail := "Incorrect email or password" } :=
  ⟨(login_uniform_failure [⟨1, "a@b.c", hash_password "pw123", 0⟩] "x@y.z" "pw123" 9).1
      (by decide),
   (login_uniform_failure [⟨1, "a@b.c", hash_password "pw123", 0⟩] "a@b.c" "wrong" 9).2
      ⟨1, "a@b.c", hash_password "pw123", 0⟩ (by decide) (by decide)⟩

/-- C8: registration and login place `str(user.id)` in the token's
subject; Python `int` parses that string back to the same identifier, and
resolving such a token against a store with unique ids fetches exactly the
user it was issued for. -/
theorem token_subject_roundtrip (u : User) (users : List User) (now exp : Nat)
    (hmem : u ∈ users) (huniq : ∀ v ∈ users, v.id = u.id → v = u)
    (hexp : now ≤ exp) :
    (register_login_token u exp).sub = some (str_of_int u.id)
    ∧ pyInt (str_of_int u.id) = some u.id
    ∧ get_current_user (register_login_token u exp) now users = .ok u := by
  refine ⟨rfl, pyInt_str_of_int u.id, ?_⟩
  have hlt : ¬exp < now := by omega
  have hjose : joseDecode (register_login_token u exp) now
      = .ok { sub := some (str_of_int u.id) } := by
    unfold joseDecode register_login_token create_access_token
    simp [hlt]
  have hdec : decode_token (register_login_token u exp) now
      = .ok { sub := some (str_of_int u.id) } := by
    unfold decode_token
    rw [hjose]
  have hfind := find?_id_eq_some users u hmem huniq
  simp only [get_current_user, hdec, pyInt_str_of_int, hfind]

/-- C8 witness: the round trip at user id 7 on a one-user store. -/
theorem token_subject_roundtrip_witness :
    pyInt (str_of_int (7 : Int)) = some 7
    ∧ get_current_user (register_login_token ⟨7, "a@b.c", "#pw", 0⟩ 10) 0
        [⟨7, "a@b.c", "#pw", 0⟩] = .ok ⟨7, "a@b.c", "#pw", 0⟩ := by
  have h := token_subject_roundtrip ⟨7, "a@b.c", "#pw", 0⟩ [⟨7, "a@b.c", "#pw", 0⟩] 0 10
    (by decide) (by decide) (by omega)
  exact ⟨h.2.1, h.2.2⟩

/-- C9: the submitted email is normalized (strip, lowercase, null-byte
removal) before anything else; registration fails with the 400
"Email already registered" error exactly when a stored row carries the
normalized email; and after a successful registration, a second
registration whose email has the same normal form fails. -/
theorem registration_email_normalization (users : List User)
    (raw raw2 password password2 : String) (nid nid2 : Int) (now now2 exp exp2 : Nat) :
    sanitize_email raw = removeNulls (pyLower (pyStrip raw))
    ∧ (register_request users raw password nid now exp
        = .error { status_code := 400, detail := "Email already registered" }
      ↔ ∃ u ∈ users, u.email = sanitize_email raw)
    ∧ (∀ users2 rest, register_request users raw password nid now exp = .ok (users2, rest) →
        sanitize_email raw2 = sanitize_email raw →
        register_request users2 raw2 password2 nid2 now2 exp2
          = .error { status_code := 400, detail := "Email already registered" }) := by
  refine ⟨?_, ?_, ?_⟩
  · unfold sanitize_email
    split
    · rename_i h
      rw [h]
      rfl
    · rfl
  · cases hfind : users.find? (fun u => u.email == sanitize_email raw) with
    | none =>
      constructor
      · intro h
        simp only [register_request, hfind] at h
        exact Except.noConfusion h
      · rintro ⟨u, hu, he⟩
        have hsome : (users.find? (fun v => v.email == sanitize_email raw)).isSome := by
          exact List.find?_isSome.mpr ⟨u, hu, by simp [he]⟩
        rw [hfind] at hsome
        simp at hsome
    | some u =>
      constructor
      · intro _
        refine ⟨u, List.mem_of_find?_eq_some hfind, ?_⟩
        have := List.find?_some hfind
        simpa using this
      · intro _
        simp only [register_request, hfind]
  · intro users2 rest hok heq
    cases hfind : users.find? (fun u => u.email == sanitize_email raw) with
    | some u =>
      simp only [register_request, hfind] at hok
      exact Except.noConfusion hok
    | none =>
      simp only [register_request, hfind] at hok
      injection hok with hpair
      injection hpair with husers hrest
      subst husers
      simp only [register_request, heq]
      rw [List.find?_append, hfind]
      simp

/-- C9 witness: registering `alice@example.com` under a case-and-whitespace
variant succeeds on an empty store, and a second registration under
another variant of the same email fails with 400. -/
theorem registration_email_normalization_witness :
    register_request
      [{ id := 1, email := "alice@example.com",
         hashed_password := hash_password "password1", created_at := 0 }]
      "  ALICE@example.com " "password2" 2 1 9
      = .error { status_code := 400, detail := "Email already registered" } :=
  (registration_email_normalization [] "Alice@Example.com " "  ALICE@example.com "
    "password1" "password2" 1 2 0 1 9 9).2.2
    [{ id := 1, email := "alice@example.com",
       hashed_password := hash_password "password1", created_at := 0 }]
    (register_login_token
      { id := 1, email := "alice@example.com",
        hashed_password := hash_password "password1", created_at := 0 } 9,
      { id := 1, email := "alice@example.com",
        hashed_password := hash_password "password1", created_at := 0 })
    rfl (by decide)

/-- C10: for create and update requests alike, the stored (and echoed)
title and description are the sanitized forms of the submitted strings: a
payload accepted by the create schema makes `create_task` store the
sanitized title/description; a payload accepted by the update schema
carries only sanitized strings, and `apply_update` (the row `update_task`
commits and echoes for the owner) stores exactly those for every submitted
field; a whitespace-only title sanitizes to the empty string and is
rejected by the minimum-length validation of both schemas. -/
theorem sanitized_task_content (store : List Task) (uid new_id tid : Int) (now : Nat)
    (raw_title : String) (raw_desc : Option String)
    (up_title up_desc : Option String) (up_done : Option Bool) :
    (∀ c, task_create_validate raw_title raw_desc = .ok c →
      (create_task store uid c new_id now).1.title = sanitize_string raw_title
      ∧ (create_task store uid c new_id now).1.description
        = raw_desc.map sanitize_string)
    ∧ (pyStrip raw_title = "" →
      task_create_validate raw_title raw_desc
        = .error "String should have at least 1 character")
    ∧ (∀ u, task_update_validate up_title up_desc up_done = .ok u →
      u.title = up_title.map sanitize_string
      ∧ u.description = up_desc.map sanitize_string)
    ∧ (∀ u task, task_update_validate up_title up_desc up_done = .ok u →
      find_task store tid = some task → task.user_id = uid →
      (update_task store uid tid u now).1 = .ok (apply_update task u now)
      ∧ (∀ s, up_title = some s →
          (apply_update task u now).title = sanitize_string s)
      ∧ (∀ s, up_desc = some s →
          (apply_update task u now).description = some (sanitize_string s)))
    ∧ (∀ s, up_title = some s → pyStrip s = "" →
      task_update_validate up_title up_desc up_done
        = .error "String should have at least 1 character") := by
  have hsanit : ∀ s : String, pyStrip s = "" → sanitize_string s = "" := by
    intro s hstrip
    unfold sanitize_string
    split
    · rename_i h
      exact h
    · rw [hstrip]
      rfl
  have hupd_fields : ∀ u, task_update_validate up_title up_desc up_done = .ok u →
      u.title = up_title.map sanitize_string
      ∧ u.description = up_desc.map sanitize_string := by
    intro u hu
    simp only [task_update_validate] at hu
    split at hu
    · rename_i s heq1
      split at hu
      · exact absurd hu (by simp)
      · split at hu
        · exact absurd hu (by simp)
        · split at hu
          · rename_i s2 heq2
            split at hu
            · exact absurd hu (by simp)
            · injection hu with hu
              subst hu
              exact ⟨rfl, rfl⟩
          · rename_i heq2
            injection hu with hu
            subst hu
            exact ⟨rfl, heq2.symm⟩
    · rename_i heq1
      split at hu
      · rename_i s2 heq2
        split at hu
        · exact absurd hu (by simp)
        · injection hu with hu
          subst hu
          exact ⟨heq1.symm, rfl⟩
      · rename_i heq2
        injection hu with hu
        subst hu
        exact ⟨heq1.symm, heq2.symm⟩
  refine ⟨?_, ?_, hupd_fields, ?_, ?_⟩
  · intro c hc
    simp only [task_create_validate] at hc
    split at hc
    · exact absurd hc (by simp)
    · split at hc
      · exact absurd hc (by simp)
      · split at hc
        · rename_i s heq
          split at hc
          · exact absurd hc (by simp)
          · injection hc with hc
            subst hc
            exact ⟨rfl, rfl⟩
        · rename_i heq
          injection hc with hc
          subst hc
          exact ⟨rfl, heq.symm⟩
  · intro hstrip
    simp only [task_create_validate]
    rw [hsanit raw_title hstrip]
    exact rfl
  · intro u task hu hfind howner
    obtain ⟨hut, hud⟩ := hupd_fields u hu
    obtain ⟨ut, ud, uc⟩ := u
    refine ⟨?_, ?_, ?_⟩
    · have hb : (task.user_id != uid) = false := by simp [howner]
      unfold update_task
      rw [hfind]
      simp [hb]
    · intro s hs
      subst hs
      have ht : ut = some (sanitize_string s) := hut
      subst ht
      cases ud <;> cases uc <;> rfl
    · intro s hs
      subst hs
      have hd : ud = some (sanitize_string s) := hud
      subst hd
      cases ut <;> cases uc <;> rfl
  · intro s hs hstrip
    subst hs
    simp only [task_update_validate]
    have hmap : Option.map sanitize_string (some s) = some "" := by
      show some (sanitize_string s) = some ""
      rw [hsanit s hstrip]
    rw [hmap]
    exact rfl

/-- C10 witness: the stored title for the submitted `<script>` is its
escaped form on create and on update (and the updated description is the
escaped `<i>`), while a whitespace-only title is rejected by both
schemas. -/
theorem sanitized_task_content_witness :
    (create_task [] 7 ⟨"&lt;script&gt;", none⟩ 1 0).1.title = sanitize_string "<script>"
    ∧ task_create_validate " \t " none
      = .error "String should have at least 1 character"
    ∧ (apply_update ⟨1, 10, "t", none, false, 0, 0⟩
        ⟨some "&lt;script&gt;", some "&lt;i&gt;", none⟩ 5).title
      = sanitize_string "<script>"
    ∧ (apply_update ⟨1, 10, "t", none, false, 0, 0⟩
        ⟨some "&lt;script&gt;", some "&lt;i&gt;", none⟩ 5).description
      = some (sanitize_string "<i>")
    ∧ task_update_validate (some " \t ") none none
      = .error "String should have at least 1 character" := by
  have h1 := sanitized_task_content [] 7 1 1 0 "<script>" none
    (some "<script>") (some "<i>") none
  have h2 := sanitized_task_content [⟨1, 10, "t", none, false, 0, 0⟩] 10 1 1 5
    "<script>" none (some "<script>") (some "<i>") none
  have h3 := sanitized_task_content [] 7 1 1 0 " \t " none (some " \t ") none none
  refine ⟨(h1.1 ⟨"&lt;script&gt;", none⟩ rfl).1, h3.2.1 (by decide), ?_, ?_,
    h3.2.2.2.2 " \t " rfl (by decide)⟩
  · exact (h2.2.2.2.1 ⟨some "&lt;script&gt;", some "&lt;i&gt;", none⟩
      ⟨1, 10, "t", none, false, 0, 0⟩ rfl rfl rfl).2.1 "<script>" rfl
  · exact (h2.2.2.2.1 ⟨some "&lt;script&gt;", some "&lt;i&gt;", none⟩
      ⟨1, 10, "t", none, false, 0, 0⟩ rfl rfl rfl).2.2 "<i>" rfl

end TodoApp
